import Mathlib

/-!
Shallow embedding of `cql::cql_session_impl_t`
(src/src/cql/internal/cql_session_impl.cpp) from the cpp-driver repository.

The session orchestrates a per-endpoint connection pool, per-endpoint
connection counters, a trashcan of soft-retired connections, and the
host-selection dispatch loop `connect`.  Pure data is translated directly;
the mutable session state is threaded explicitly through each operation.
C++ exceptions are modelled with `Except`; the out-parameters `stream` and
`tried_hosts` become components of the returned value.

The `cql_connection_t` class itself is repository code that is not part of
the sources given here (only its interface is used by the session); its
observable behaviour (`is_busy`, `is_free`, `acquire_stream`, the outcome
of the connect future) is modelled from the spec, as noted on each
definition.
-/

namespace CqlSession

/-- Host distance classification (LOCAL / REMOTE / IGNORED). -/
inductive cql_host_distance_enum where
  | dist_local
  | dist_remote
  | dist_ignored
deriving DecidableEq, Repr

/-- A `(host, port)` pair identifying a cluster node. -/
structure cql_endpoint_t where
  host : Nat
  port : Nat
deriving DecidableEq, Repr

/-- A stream handle; `none` models the invalid sentinel `cql_stream_t()`. -/
structure cql_stream_t where
  sid : Option Nat
deriving DecidableEq, Repr

def cql_stream_t.is_invalid (s : cql_stream_t) : Bool := s.sid.isNone

/-- A connection as the session observes it: identity, endpoint, health,
in-flight load, the stream its allocator would hand out next (`none` when
no stream is acquirable), and a closed flag set by `close()`. -/
structure cql_connection_t where
  cid : Nat
  endpoint : cql_endpoint_t
  healthy : Bool
  in_flight : Int
  next_stream : Option Nat
  closed : Bool
deriving DecidableEq, Repr

def cql_connection_t.is_healthy (c : cql_connection_t) : Bool := c.healthy

/-- Modelled from the spec: `cql_connection_t::is_busy` is not among the
given sources.  Per the dispatch decision table, "`in_flight <
max_simultaneous_per_connection(distance)` → acquire stream", so busy
means the in-flight count is at or above the watermark. -/
def cql_connection_t.is_busy (c : cql_connection_t) (watermark : Int) : Bool :=
  c.in_flight ≥ watermark

/-- Modelled from the spec: `cql_connection_t::is_free` is not among the
given sources.  Per the decision table, "`in_flight ≤
min_simultaneous_per_connection(distance)` → move to Trashcan", so free
means the in-flight count is at or below the watermark. -/
def cql_connection_t.is_free (c : cql_connection_t) (watermark : Int) : Bool :=
  c.in_flight ≤ watermark

/-- Modelled from the spec: stream acquisition returns a stream handle or
the invalid sentinel when none is acquirable. -/
def cql_connection_t.acquire_stream (c : cql_connection_t) : cql_stream_t :=
  ⟨c.next_stream⟩

/-- The effect of `cql_connection_t::close()` as the session observes it. -/
def cql_connection_t.close_conn (c : cql_connection_t) : cql_connection_t :=
  { c with closed := true }

/-- Pooling options: the four per-distance watermarks the session reads. -/
structure cql_pooling_options_t where
  max_connection_per_host : cql_host_distance_enum → Int
  core_connections_per_host : cql_host_distance_enum → Int
  max_simultaneous_requests_per_connection_treshold : cql_host_distance_enum → Int
  min_simultaneous_requests_per_connection_treshold : cql_host_distance_enum → Int

/-- A host as the query plan yields it.  `dial_ok` models the resolution of
the connect future for a fresh dial to this host (success or error), and
`fresh_conn` the connection the injected `_client_callback` factory would
produce for it; both are oracles for collaborator behaviour outside the
given sources. -/
structure cql_host_t where
  endpoint : cql_endpoint_t
  distance : cql_host_distance_enum
  is_considerably_up : Bool
  dial_ok : Bool
  fresh_conn : cql_connection_t
deriving DecidableEq, Repr

/-- Per-endpoint connection counters (`_connection_counters`), an
association list `endpoint → long`. -/
abbrev connection_counters_t := List (cql_endpoint_t × Int)

def counters_try_get (m : connection_counters_t) (ep : cql_endpoint_t) : Option Int :=
  match m with
  | [] => none
  | (e, v) :: rest => if e = ep then some v else counters_try_get rest ep

/-- Update an existing entry in place (no-op when absent, matching the
pointer-based `(*counter)++` which presupposes presence). -/
def counters_set (m : connection_counters_t) (ep : cql_endpoint_t) (v : Int) :
    connection_counters_t :=
  match m with
  | [] => []
  | (e, w) :: rest =>
      if e = ep then (e, v) :: rest else (e, w) :: counters_set rest ep v

/-- The counter value at an endpoint, reading an absent entry as 0. -/
def counter_value (m : connection_counters_t) (ep : cql_endpoint_t) : Int :=
  (counters_try_get m ep).getD 0

/-- Translation of `cql_session_impl_t::increase_connection_counter`: install a fresh
counter at 1 (`try_add`), and if an entry already exists increment it,
rolling back and reporting failure when the incremented value exceeds
`max_connection_per_host(distance)`. -/
def increase_connection_counter (opts : cql_pooling_options_t)
    (host : cql_host_t) (ctrs : connection_counters_t) :
    Bool × connection_counters_t :=
  let endpoint := host.endpoint
  let max_connections := opts.max_connection_per_host host.distance
  match counters_try_get ctrs endpoint with
  | none => (true, (endpoint, 1) :: ctrs)
  | some c =>
      let ctrs1 := counters_set ctrs endpoint (c + 1)
      if c + 1 > max_connections then
        (false, counters_set ctrs1 endpoint (c + 1 - 1))
      else
        (true, ctrs1)

/-- Translation of `cql_session_impl_t::decrease_connection_counter`. -/
def decrease_connection_counter (host : cql_host_t)
    (ctrs : connection_counters_t) : Bool × connection_counters_t :=
  match counters_try_get ctrs host.endpoint with
  | some c => (true, counters_set ctrs host.endpoint (c - 1))
  | none => (false, ctrs)

/-- Translation of `cql_session_impl_t::free_connection`: close the connection and
decrement its endpoint's counter when one exists.  Returns the updated
counters together with the (closed) connection. -/
def free_connection (ctrs : connection_counters_t)
    (connection : Option cql_connection_t) :
    connection_counters_t × Option cql_connection_t :=
  match connection with
  | none => (ctrs, none)
  | some conn =>
      let conn1 := conn.close_conn
      match counters_try_get ctrs conn.endpoint with
      | some c => (counters_set ctrs conn.endpoint (c - 1), some conn1)
      | none => (ctrs, some conn1)

/-- A per-endpoint connection collection (`cql_connections_collection_t`),
an association list `uuid → connection`. -/
abbrev cql_connections_collection_t := List (Nat × cql_connection_t)

/-- The pool (`cql_connection_pool_t`): `endpoint → collection`. -/
abbrev cql_connection_pool_t := List (cql_endpoint_t × cql_connections_collection_t)

/-- The trashcan, newest deposit first; entries carry their endpoint. -/
abbrev cql_trashcan_t := List cql_connection_t

def collection_contains (c : cql_connections_collection_t) (conn_id : Nat) : Bool :=
  match c with
  | [] => false
  | (i, _) :: rest => if i = conn_id then true else collection_contains rest conn_id

/-- The `try_add` operation on a collection: rejects duplicate ids. -/
def collection_try_add (c : cql_connections_collection_t) (conn_id : Nat)
    (conn : cql_connection_t) : cql_connections_collection_t :=
  if collection_contains c conn_id then c else c ++ [(conn_id, conn)]

/-- The `try_erase` operation on a collection: remove the entry with the given id,
returning it when present. -/
def collection_try_erase (c : cql_connections_collection_t) (conn_id : Nat) :
    Option cql_connection_t × cql_connections_collection_t :=
  match c with
  | [] => (none, [])
  | (i, conn) :: rest =>
      if i = conn_id then (some conn, rest)
      else
        let r := collection_try_erase rest conn_id
        (r.1, (i, conn) :: r.2)

def pool_try_get (p : cql_connection_pool_t) (ep : cql_endpoint_t) :
    Option cql_connections_collection_t :=
  match p with
  | [] => none
  | (e, coll) :: rest => if e = ep then some coll else pool_try_get rest ep

/-- Write a collection back at an endpoint (the C++ collection object is
shared between the pool map and the local variable, so mutations through
either are one and the same; explicit state passing makes the write-back
explicit). -/
def pool_set (p : cql_connection_pool_t) (ep : cql_endpoint_t)
    (coll : cql_connections_collection_t) : cql_connection_pool_t :=
  match p with
  | [] => [(ep, coll)]
  | (e, c) :: rest =>
      if e = ep then (e, coll) :: rest else (e, c) :: pool_set rest ep coll

/-- Translation of `cql_trashcan_t::put`. -/
def trashcan_put (t : cql_trashcan_t) (conn : cql_connection_t) : cql_trashcan_t :=
  conn :: t

/-- Modelled from the spec: `cql_trashcan_t::recycle` is not among the
given sources; it "returns the most recently deposited connection for
that endpoint, or none". -/
def trashcan_recycle (t : cql_trashcan_t) (ep : cql_endpoint_t) :
    Option cql_connection_t × cql_trashcan_t :=
  match t with
  | [] => (none, [])
  | c :: rest =>
      if c.endpoint = ep then (some c, rest)
      else
        let r := trashcan_recycle rest ep
        (r.1, c :: r.2)

/-- The session state threaded through every operation: pool, counters,
trashcan, the `_ready`/`_defunct` flags, whether a `_ready_callback` is
registered, and how many times it has been invoked (the observable trace
of callback firings). -/
structure cql_session_impl_t where
  connection_pool : cql_connection_pool_t
  connection_counters : connection_counters_t
  trashcan : cql_trashcan_t
  ready : Bool
  defunct : Bool
  has_ready_callback : Bool
  ready_callback_fired : Nat
deriving DecidableEq, Repr

/-- C++ exceptions thrown by the session (each constructor is one throw
site of the source). -/
inductive cql_exception_t where
  | too_many_connections_per_host
  | cannot_connect (endpoint : cql_endpoint_t)
  | no_host_available
deriving DecidableEq, Repr

/-- Translation of `cql_session_impl_t::connect_callback`: clear `_defunct`, set
`_ready`, fulfil the promise (implicit in the caller's model), and invoke
`_ready_callback` whenever one is registered. -/
def connect_callback (st : cql_session_impl_t) : cql_session_impl_t :=
  let st1 := { st with defunct := false, ready := true }
  if st1.has_ready_callback then
    { st1 with ready_callback_fired := st1.ready_callback_fired + 1 }
  else st1

/-- Translation of `cql_session_impl_t::allocate_connection`: increment the endpoint
counter under the cap (throwing `cql_too_many_connections_per_host_exception`
on failure), dial via the factory connection, and wait on the connect
future.  A future resolving with an error (modelled by `dial_ok = false`)
decrements the counter and throws `cql_exception("cannot connect to host: …")`;
success runs `connect_callback` and returns the connection. -/
def allocate_connection (opts : cql_pooling_options_t)
    (st : cql_session_impl_t) (host : cql_host_t) :
    Except cql_exception_t cql_connection_t × cql_session_impl_t :=
  let r := increase_connection_counter opts host st.connection_counters
  if r.1 = false then
    (Except.error .too_many_connections_per_host,
     { st with connection_counters := r.2 })
  else
    let st1 := { st with connection_counters := r.2 }
    let connection := host.fresh_conn
    if host.dial_ok then
      (Except.ok connection, connect_callback st1)
    else
      let d := decrease_connection_counter host st1.connection_counters
      (Except.error (.cannot_connect host.endpoint),
       { st1 with connection_counters := d.2 })

/-- Translation of `cql_session_impl_t::add_to_connection_pool`: get-or-install an empty
collection for the endpoint. -/
def add_to_connection_pool (st : cql_session_impl_t) (host_address : cql_endpoint_t) :
    cql_connections_collection_t × cql_session_impl_t :=
  match pool_try_get st.connection_pool host_address with
  | some coll => (coll, st)
  | none =>
      ([], { st with connection_pool := pool_set st.connection_pool host_address [] })

/-- Result of `try_find_free_stream`: the found connection (if any), the
out-parameter stream, and the mutated collection, counters and trashcan. -/
structure find_stream_result where
  conn : Option cql_connection_t
  stream : cql_stream_t
  connections : cql_connections_collection_t
  ctrs : connection_counters_t
  trash : cql_trashcan_t
deriving DecidableEq, Repr

/-- The iteration of `cql_session_impl_t::try_find_free_stream` over the
collection's entries: evict unhealthy connections
(`try_remove_connection` = `try_erase` + `free_connection`), return the
first non-busy connection yielding a valid stream, and move idle
connections to the trashcan when the (current) collection size strictly
exceeds `core_connections_per_host(distance)`. -/
def try_find_free_stream_loop (opts : cql_pooling_options_t)
    (distance : cql_host_distance_enum)
    (entries : List (Nat × cql_connection_t))
    (connections : cql_connections_collection_t)
    (ctrs : connection_counters_t) (trash : cql_trashcan_t) : find_stream_result :=
  match entries with
  | [] => ⟨none, ⟨none⟩, connections, ctrs, trash⟩
  | (conn_id, conn) :: rest =>
      if conn.is_healthy = false then
        let e := collection_try_erase connections conn_id
        match e.1 with
        | some erased =>
            let f := free_connection ctrs (some erased)
            try_find_free_stream_loop opts distance rest e.2 f.1 trash
        | none =>
            try_find_free_stream_loop opts distance rest e.2 ctrs trash
      else if conn.is_busy
          (opts.max_simultaneous_requests_per_connection_treshold distance) = false then
        let stream := conn.acquire_stream
        if stream.is_invalid = false then ⟨some conn, stream, connections, ctrs, trash⟩
        else try_find_free_stream_loop opts distance rest connections ctrs trash
      else if (connections.length : Int) > opts.core_connections_per_host distance then
        if conn.is_free
            (opts.min_simultaneous_requests_per_connection_treshold distance) = true then
          let e := collection_try_erase connections conn_id
          match e.1 with
          | some _ =>
              try_find_free_stream_loop opts distance rest e.2 ctrs (trashcan_put trash conn)
          | none =>
              try_find_free_stream_loop opts distance rest e.2 ctrs trash
        else try_find_free_stream_loop opts distance rest connections ctrs trash
      else try_find_free_stream_loop opts distance rest connections ctrs trash

/-- Translation of `cql_session_impl_t::try_find_free_stream`. -/
def try_find_free_stream (opts : cql_pooling_options_t) (host : cql_host_t)
    (connections : cql_connections_collection_t)
    (ctrs : connection_counters_t) (trash : cql_trashcan_t) : find_stream_result :=
  try_find_free_stream_loop opts host.distance connections connections ctrs trash

/-- Result of the dispatch loop `connect`: the returned `(connection,
stream)` or the thrown exception, the session state, and the caller's
`tried_hosts` out-parameter (observable after a throw as well). -/
structure connect_result where
  result : Except cql_exception_t (cql_connection_t × cql_stream_t)
  st : cql_session_impl_t
  tried : List cql_endpoint_t
deriving Repr

/-- Translation of `cql_session_impl_t::connect`: the dispatch loop over the query plan.
Hosts that are not considerably up are skipped; otherwise the endpoint is
recorded as tried, a free stream is sought in the pool, the trashcan is
consulted (an unhealthy recycled connection is freed), and finally a new
connection is allocated — `allocate_connection`'s exceptions propagate
out of the loop uncaught, exactly as in the source.  An exhausted plan
throws `cql_exception("no host is available …")`. -/
def connect (opts : cql_pooling_options_t) (st : cql_session_impl_t)
    (plan : List cql_host_t) (tried : List cql_endpoint_t) : connect_result :=
  match plan with
  | [] => ⟨Except.error .no_host_available, st, tried⟩
  | host :: rest =>
      if host.is_considerably_up = false then connect opts st rest tried
      else
        let host_address := host.endpoint
        let tried1 := tried ++ [host_address]
        let a := add_to_connection_pool st host_address
        let fr := try_find_free_stream opts host a.1 a.2.connection_counters a.2.trashcan
        let st2 := { a.2 with
          connection_pool := pool_set a.2.connection_pool host_address fr.connections,
          connection_counters := fr.ctrs,
          trashcan := fr.trash }
        match fr.conn with
        | some conn => ⟨Except.ok (conn, fr.stream), st2, tried1⟩
        | none =>
            let rcy := trashcan_recycle st2.trashcan host_address
            let st3 := { st2 with trashcan := rcy.2 }
            let chosen : Option cql_connection_t × cql_session_impl_t :=
              match rcy.1 with
              | some c =>
                  if c.is_healthy = false then
                    let f := free_connection st3.connection_counters (some c)
                    (none, { st3 with connection_counters := f.1 })
                  else (some c, st3)
              | none => (none, st3)
            let alloc : Except cql_exception_t cql_connection_t × cql_session_impl_t :=
              match chosen.1 with
              | some c => (Except.ok c, chosen.2)
              | none => allocate_connection opts chosen.2 host
            match alloc with
            | (Except.error e, st5) => ⟨Except.error e, st5, tried1⟩
            | (Except.ok conn, st5) =>
                let coll1 := collection_try_add fr.connections conn.cid conn
                let st6 := { st5 with
                  connection_pool := pool_set st5.connection_pool host_address coll1 }
                ⟨Except.ok (conn, conn.acquire_stream), st6, tried1⟩

/-- Translation of `cql_session_impl_t::get_connection`: a fresh query plan (supplied
here as an argument, the policy being external) and an empty
`tried_hosts` list, then `connect`. -/
def get_connection (opts : cql_pooling_options_t) (st : cql_session_impl_t)
    (plan : List cql_host_t) : connect_result :=
  connect opts st plan []

/-- A CQL query object: its text and the stream set on it. -/
structure cql_query_t where
  text : String
  stream : cql_stream_t
deriving DecidableEq, Repr

def cql_query_t.set_stream (q : cql_query_t) (s : cql_stream_t) : cql_query_t :=
  { q with stream := s }

/-- An EXECUTE message (prepared-statement handle plus bound values),
opaque to the session. -/
structure cql_execute_t where
  query_id : Nat
deriving DecidableEq, Repr

/-- The future a dispatch operation hands back: a request submitted on a
connection through its `query` or `prepare` operation, or a library error
placed into the future. -/
inductive cql_future_result_t where
  | submitted_query (conn : cql_connection_t) (q : cql_query_t)
  | submitted_prepare (conn : cql_connection_t) (q : cql_query_t)
  | library_error (message : String)
deriving DecidableEq, Repr

/-- The shared `if (conn) … else library-error` body of the
future-returning `query` overload: on a connection, set the stream on a
copy of the query and submit via the connection's `query` operation;
otherwise a future carrying the library error. -/
def query_body (q : cql_query_t)
    (r : Option (cql_connection_t × cql_stream_t)) : cql_future_result_t :=
  match r with
  | some (conn, stream) => .submitted_query conn (q.set_stream stream)
  | none => .library_error "could not obtain viable client from the pool."

/-- The body of the future-returning `prepare` overload, translated from
its own source lines (373–392): it likewise submits through the
connection's `query` operation — `conn->query(q)`, not `conn->prepare` —
with the same library-error message on the null-connection branch. -/
def prepare_body (q : cql_query_t)
    (r : Option (cql_connection_t × cql_stream_t)) : cql_future_result_t :=
  match r with
  | some (conn, stream) => .submitted_query conn (q.set_stream stream)
  | none => .library_error "could not obtain viable client from the pool."

/-- Translation of `cql_session_impl_t::query` (future overload): `get_connection`, then
the `if (conn)` body.  `connect` either returns a connection or throws,
so the thrown exception propagates out of `query`; the returned shared
pointer is never null, making the library-error branch unreachable — it
is nonetheless part of `query_body` as in the source. -/
def query_future (opts : cql_pooling_options_t) (st : cql_session_impl_t)
    (plan : List cql_host_t) (q : cql_query_t) :
    Except cql_exception_t cql_future_result_t × cql_session_impl_t :=
  match get_connection opts st plan with
  | ⟨Except.error e, st1, _⟩ => (Except.error e, st1)
  | ⟨Except.ok cs, st1, _⟩ => (Except.ok (query_body q (some cs)), st1)

/-- Translation of `cql_session_impl_t::prepare` (future overload), same shape with
`prepare_body`. -/
def prepare_future (opts : cql_pooling_options_t) (st : cql_session_impl_t)
    (plan : List cql_host_t) (q : cql_query_t) :
    Except cql_exception_t cql_future_result_t × cql_session_impl_t :=
  match get_connection opts st plan with
  | ⟨Except.error e, st1, _⟩ => (Except.error e, st1)
  | ⟨Except.ok cs, st1, _⟩ => (Except.ok (prepare_body q (some cs)), st1)

/-- Observable outcome of the future-returning `execute` overload:
the process aborts on `assert(0)`, or the `get_connection` exception
propagates first (nothing after the assert is reachable). -/
inductive execute_outcome where
  | aborted
  | thrown (e : cql_exception_t)
deriving DecidableEq, Repr

/-- Translation of `cql_session_impl_t::execute` (future overload, lines 394–416):
`get_connection` (whose exception would propagate), then `assert(0)`
unconditionally — the `if (conn)` submission and the library-error future
below it are dead code. -/
def execute_future (opts : cql_pooling_options_t) (st : cql_session_impl_t)
    (plan : List cql_host_t) (_message : cql_execute_t) :
    execute_outcome × cql_session_impl_t :=
  match get_connection opts st plan with
  | ⟨Except.error e, st1, _⟩ => (.thrown e, st1)
  | ⟨Except.ok _, st1, _⟩ => (.aborted, st1)

/-- Translation of `cql_session_impl_t::close` (lines 428–444): walk the pool and call
`close()` on every connection.  Nothing is erased from any collection and
no counter is decremented (the body's own TODO comment records both as
missing). -/
def session_close (st : cql_session_impl_t) : cql_session_impl_t :=
  { st with connection_pool :=
      st.connection_pool.map (fun hc =>
        (hc.1, hc.2.map (fun ic => (ic.1, ic.2.close_conn)))) }

/-- Translation of `cql_session_impl_t::size`: sum of the collection sizes. -/
def session_size (st : cql_session_impl_t) : Nat :=
  st.connection_pool.foldl (fun acc hc => acc + hc.2.length) 0

/-! Concrete fixtures used by the theorems below. -/

def ep1 : cql_endpoint_t := ⟨1, 9042⟩
def ep2 : cql_endpoint_t := ⟨2, 9042⟩
def ep3 : cql_endpoint_t := ⟨3, 9042⟩

def conn_a : cql_connection_t := ⟨11, ep1, true, 0, some 5, false⟩
def conn_b : cql_connection_t := ⟨22, ep2, true, 0, some 6, false⟩
def conn_mid : cql_connection_t := ⟨44, ep1, true, 3, some 8, false⟩

/-- max = 2, core = 1, max_simultaneous = 100, min_simultaneous = 5. -/
def opts0 : cql_pooling_options_t :=
  ⟨fun _ => 2, fun _ => 1, fun _ => 100, fun _ => 5⟩

/-- Cap 0 for every distance. -/
def opts_cap0 : cql_pooling_options_t :=
  ⟨fun _ => 0, fun _ => 1, fun _ => 100, fun _ => 5⟩

/-- max_simultaneous = 0 makes every connection busy; min_simultaneous = 5
keeps a lightly loaded connection eligible for the trashcan. -/
def opts_idle : cql_pooling_options_t :=
  ⟨fun _ => 2, fun _ => 1, fun _ => 0, fun _ => 5⟩

def host_up1 : cql_host_t := ⟨ep1, .dist_local, true, true, conn_a⟩
def host_fail1 : cql_host_t := ⟨ep1, .dist_local, true, false, conn_a⟩
def host_up2 : cql_host_t := ⟨ep2, .dist_local, true, true, conn_b⟩
def host_down3 : cql_host_t := ⟨ep3, .dist_local, false, true, conn_b⟩

/-- A freshly constructed session. -/
def st0 : cql_session_impl_t := ⟨[], [], [], false, false, true, 0⟩

/-- A ready session holding one pooled healthy idle connection at `ep1`. -/
def st_pooled : cql_session_impl_t :=
  ⟨[(ep1, [(11, conn_a)])], [(ep1, 1)], [], true, false, true, 1⟩

/-- A session that is already ready and whose callback has fired once. -/
def st_ready : cql_session_impl_t := ⟨[], [], [], true, false, true, 1⟩

/-- A ready session whose endpoint `ep1` is saturated: counter 2 at cap 2. -/
def st_cap : cql_session_impl_t :=
  ⟨[(ep1, [(11, conn_a)])], [(ep1, 2)], [], true, false, true, 1⟩

/-! Helper lemmas about the counter map. -/

theorem counters_try_get_set (ep : cql_endpoint_t) (v c : Int) :
    ∀ m : connection_counters_t, counters_try_get m ep = some c →
      counters_try_get (counters_set m ep v) ep = some v := by
  intro m
  induction m with
  | nil => intro h; simp [counters_try_get] at h
  | cons p rest ih =>
      intro h
      obtain ⟨e, w⟩ := p
      by_cases he : e = ep
      · simp [counters_set, he, counters_try_get]
      · simp only [counters_try_get, counters_set, if_neg he] at h ⊢
        exact ih h

theorem counter_value_of_try_get {m : connection_counters_t}
    {ep : cql_endpoint_t} {c : Int} (h : counters_try_get m ep = some c) :
    counter_value m ep = c := by
  simp [counter_value, h]

/-! Theorems settling the claims. -/

/-- Claim C2, counterexample: with `max_connections_per_host = 0` and no
counter entry for the endpoint, `increase_connection_counter` takes the
`try_add` path, never checks the cap, reports success, and leaves
`counter[ep] = 1 > 0`, violating the cap invariant the claim states for
exactly this first-allocation case. -/
theorem C2_cap_zero_counterexample :
    (increase_connection_counter opts_cap0 host_up1 []).1 = true
    ∧ counter_value (increase_connection_counter opts_cap0 host_up1 []).2
        host_up1.endpoint = 1
    ∧ opts_cap0.max_connection_per_host host_up1.distance = 0 :=
  ⟨rfl, rfl, rfl⟩

/-- Claim C2, amended: provided the cap is at least 1, a counter at or
below the cap stays at or below the cap across
`increase_connection_counter`; when the increment would exceed the cap
the function rolls the counter back to its prior value and reports
failure, upon which `allocate_connection` fails with
`TooManyConnectionsPerHost`.  (The cap-0 first-allocation case of the
original claim fails, per the counterexample.) -/
theorem C2_cap_respected (opts : cql_pooling_options_t) (host : cql_host_t)
    (ctrs : connection_counters_t) (st : cql_session_impl_t)
    (hmax : 1 ≤ opts.max_connection_per_host host.distance)
    (hpre : counter_value ctrs host.endpoint
        ≤ opts.max_connection_per_host host.distance)
    (hst : st.connection_counters = ctrs) :
    counter_value (increase_connection_counter opts host ctrs).2 host.endpoint
        ≤ opts.max_connection_per_host host.distance
    ∧ ((increase_connection_counter opts host ctrs).1 = false →
        counter_value (increase_connection_counter opts host ctrs).2 host.endpoint
          = counter_value ctrs host.endpoint
        ∧ (allocate_connection opts st host).1
            = Except.error cql_exception_t.too_many_connections_per_host) := by
  cases hget : counters_try_get ctrs host.endpoint with
  | none =>
      constructor
      · simp [increase_connection_counter, hget, counter_value, counters_try_get]
        exact hmax
      · intro hfalse
        simp [increase_connection_counter, hget] at hfalse
  | some c =>
      have hc : counter_value ctrs host.endpoint = c := counter_value_of_try_get hget
      by_cases hgt : c + 1 > opts.max_connection_per_host host.distance
      · have h1 : counters_try_get (counters_set ctrs host.endpoint (c + 1))
            host.endpoint = some (c + 1) := counters_try_get_set _ _ _ _ hget
        have h2 : counters_try_get
            (counters_set (counters_set ctrs host.endpoint (c + 1))
              host.endpoint (c + 1 - 1)) host.endpoint = some (c + 1 - 1) :=
          counters_try_get_set _ _ _ _ h1
        have hval : counter_value (increase_connection_counter opts host ctrs).2
            host.endpoint = c := by
          simp only [increase_connection_counter, hget, if_pos hgt]
          rw [counter_value_of_try_get h2]
          omega
        refine ⟨by rw [hval]; omega, fun _ => ⟨by rw [hval, hc], ?_⟩⟩
        have hfl : (increase_connection_counter opts host ctrs).1 = false := by
          simp [increase_connection_counter, hget, if_pos hgt]
        simp [allocate_connection, hst, hfl]
      · have h1 : counters_try_get (counters_set ctrs host.endpoint (c + 1))
            host.endpoint = some (c + 1) := counters_try_get_set _ _ _ _ hget
        constructor
        · simp only [increase_connection_counter, hget, if_neg hgt]
          rw [counter_value_of_try_get h1]
          omega
        · intro hfalse
          simp [increase_connection_counter, hget, if_neg hgt] at hfalse

/-- Witness for C2_cap_respected at `opts0`, `host_up1`, counters
`[(ep1, 2)]` (a saturated endpoint: cap 2, counter 2): the increment
rolls back and `allocate_connection` fails with
`TooManyConnectionsPerHost`. -/
theorem C2_cap_respected_witness :
    ((1 : Int) ≤ opts0.max_connection_per_host host_up1.distance)
    ∧ (counter_value [(ep1, 2)] host_up1.endpoint
        ≤ opts0.max_connection_per_host host_up1.distance)
    ∧ (counter_value (increase_connection_counter opts0 host_up1 [(ep1, 2)]).2
          host_up1.endpoint ≤ opts0.max_connection_per_host host_up1.distance
       ∧ ((increase_connection_counter opts0 host_up1 [(ep1, 2)]).1 = false →
          counter_value (increase_connection_counter opts0 host_up1 [(ep1, 2)]).2
              host_up1.endpoint = counter_value [(ep1, 2)] host_up1.endpoint
          ∧ (allocate_connection opts0 st_cap host_up1).1
              = Except.error cql_exception_t.too_many_connections_per_host)) :=
  ⟨by decide, by decide,
   C2_cap_respected opts0 host_up1 [(ep1, 2)] st_cap
     (by decide) (by decide) (by decide)⟩

/-- Claim C8: a successful `increase_connection_counter` followed by
`free_connection` on a connection with that endpoint leaves the
endpoint's counter at its original value — allocate then free is the
identity on the counter value. -/
theorem C8_allocate_then_free (opts : cql_pooling_options_t) (host : cql_host_t)
    (ctrs : connection_counters_t) (conn : cql_connection_t)
    (hep : conn.endpoint = host.endpoint)
    (hok : (increase_connection_counter opts host ctrs).1 = true) :
    counter_value
        (free_connection (increase_connection_counter opts host ctrs).2 (some conn)).1
        host.endpoint
      = counter_value ctrs host.endpoint := by
  cases hget : counters_try_get ctrs host.endpoint with
  | none =>
      have hv : counter_value ctrs host.endpoint = 0 := by
        simp [counter_value, hget]
      have hget2 : counters_try_get ((host.endpoint, 1) :: ctrs) host.endpoint
          = some 1 := by
        simp [counters_try_get]
      simp only [increase_connection_counter, hget, free_connection, hep, hget2]
      rw [counter_value_of_try_get (counters_try_get_set _ _ _ _ hget2), hv]
      norm_num
  | some c =>
      have hv : counter_value ctrs host.endpoint = c := counter_value_of_try_get hget
      by_cases hgt : c + 1 > opts.max_connection_per_host host.distance
      · have : (increase_connection_counter opts host ctrs).1 = false := by
          simp [increase_connection_counter, hget, if_pos hgt]
        rw [this] at hok
        cases hok
      · have h1 : counters_try_get (counters_set ctrs host.endpoint (c + 1))
            host.endpoint = some (c + 1) := counters_try_get_set _ _ _ _ hget
        simp only [increase_connection_counter, hget, if_neg hgt,
          free_connection, hep, h1]
        rw [counter_value_of_try_get (counters_try_get_set _ _ _ _ h1), hv]
        omega

/-- Witness for C8_allocate_then_free at `opts0`, `host_up1`, counters
`[(ep1, 1)]`, connection `conn_a`: the counter returns to 1. -/
theorem C8_allocate_then_free_witness :
    conn_a.endpoint = host_up1.endpoint
    ∧ (increase_connection_counter opts0 host_up1 [(ep1, 1)]).1 = true
    ∧ counter_value
        (free_connection (increase_connection_counter opts0 host_up1 [(ep1, 1)]).2
          (some conn_a)).1 host_up1.endpoint
      = counter_value [(ep1, 1)] host_up1.endpoint :=
  ⟨by decide, by decide,
   C8_allocate_then_free opts0 host_up1 [(ep1, 1)] conn_a (by decide) (by decide)⟩

/-- Claim C7, counterexample: with the session already ready (flag true,
callback registered), a further successful connect completion runs
`connect_callback`, which invokes `_ready_callback` unconditionally —
the firing count rises although no false→true transition occurs,
contradicting "when a connection succeeds while the session is already
ready, ready_callback does not fire again". -/
theorem C7_fires_when_already_ready_counterexample :
    st_ready.ready = true
    ∧ (connect_callback st_ready).ready_callback_fired
        = st_ready.ready_callback_fired + 1 :=
  ⟨rfl, rfl⟩

/-- Claim C7, amended: `connect_callback` invokes the registered
`ready_callback` on every successful connect completion — exactly once
per invocation, regardless of whether `ready` was already true — and
leaves the session ready; the firing count tracks successful connects,
not false→true transitions of the flag. -/
theorem C7_callback_fires_every_success (st : cql_session_impl_t)
    (h : st.has_ready_callback = true) :
    (connect_callback st).ready = true
    ∧ (connect_callback st).ready_callback_fired = st.ready_callback_fired + 1 := by
  simp [connect_callback, h]

/-- Witness for C7_callback_fires_every_success at the fresh session. -/
theorem C7_callback_fires_every_success_witness :
    st0.has_ready_callback = true
    ∧ ((connect_callback st0).ready = true
       ∧ (connect_callback st0).ready_callback_fired = st0.ready_callback_fired + 1) :=
  ⟨rfl, C7_callback_fires_every_success st0 rfl⟩

/-- Claim C1: on the two-host plan `[host_fail1, host_up2]` (both
considerably up, the first dial failing, the second viable — dispatching
on `[host_up2]` alone succeeds), the dispatch does NOT proceed to the
second host: `allocate_connection` decrements the counter and throws
`cql_exception("cannot connect to host: …")`, which `connect` never
catches, so the whole dispatch fails at the first host with only `ep1`
tried.  The `if(!conn) continue;` recovery branch of the source is dead
code. -/
theorem C1_dial_failure_aborts_dispatch :
    (connect opts0 st0 [host_fail1, host_up2] []).result
        = Except.error (cql_exception_t.cannot_connect ep1)
    ∧ (connect opts0 st0 [host_fail1, host_up2] []).tried = [ep1]
    ∧ counter_value
        (connect opts0 st0 [host_fail1, host_up2] []).st.connection_counters ep1 = 0
    ∧ (connect opts0 st0 [host_up2] []).result
        = Except.ok (conn_b, ⟨some 6⟩) :=
  ⟨rfl, rfl, rfl, rfl⟩

/-- Claim C4: on a session holding one pooled connection, `close` closes
the connection but leaves it in the pool and the counters untouched:
`size()` still reports 1 afterwards (not 0) and `counter[ep1]` stays 1.
The second `close` is observably the same as the first, but the pool is
never emptied, contradicting the claim. -/
theorem C4_close_leaves_pool_populated :
    session_size (session_close st_pooled) = 1
    ∧ (session_close st_pooled).connection_counters = [(ep1, 1)]
    ∧ (session_close st_pooled).connection_pool
        = [(ep1, [(11, { conn_a with closed := true })])]
    ∧ session_close (session_close st_pooled) = session_close st_pooled :=
  ⟨rfl, rfl, rfl, rfl⟩

/-- Claim C5: on the plan `[host_down3, host_fail1]` the down host is
skipped without being recorded (its endpoint `ep3` is absent from the
tried list) and the dial-failed endpoint `ep1` IS recorded as tried —
but the dispatch then fails with the cannot-connect exception, which is
a different exception from the NoHostAvailable one, so the tried list is
never reported through `NoHostAvailable` as the claim states. -/
theorem C5_dial_failure_not_reported_via_no_host_available :
    (connect opts0 st0 [host_down3, host_fail1] []).tried = [ep1]
    ∧ ep3 ∉ (connect opts0 st0 [host_down3, host_fail1] []).tried
    ∧ (connect opts0 st0 [host_down3, host_fail1] []).result
        = Except.error (cql_exception_t.cannot_connect ep1)
    ∧ cql_exception_t.cannot_connect ep1 ≠ cql_exception_t.no_host_available :=
  ⟨rfl, by decide, rfl, by decide⟩

/-- Claim C9: on a session with a pooled healthy idle connection (so
`get_connection` succeeds), the future-returning `execute` overload
reaches `assert(0)` and aborts instead of returning a future of the
result. -/
theorem C9_execute_aborts :
    (execute_future opts0 st_pooled [host_up1] ⟨42⟩).1 = execute_outcome.aborted :=
  rfl

/-- Claim C6: a dispatch whose plan yields no viable host — every host
failing the `is_considerably_up` check, and in particular an empty plan —
throws the no-host-available exception and leaves the caller's
`tried_hosts` out-parameter exactly as it began (empty when it began
empty, as on an empty plan). -/
theorem C6_no_viable_host (opts : cql_pooling_options_t)
    (st : cql_session_impl_t) (plan : List cql_host_t)
    (tried : List cql_endpoint_t)
    (h : ∀ host ∈ plan, host.is_considerably_up = false) :
    connect opts st plan tried
      = ⟨Except.error cql_exception_t.no_host_available, st, tried⟩ := by
  induction plan with
  | nil => rfl
  | cons host rest ih =>
      have hh : host.is_considerably_up = false := h host (List.mem_cons_self host rest)
      have hrest : ∀ h2 ∈ rest, h2.is_considerably_up = false :=
        fun h2 hm => h h2 (List.mem_cons_of_mem host hm)
      calc connect opts st (host :: rest) tried
          = connect opts st rest tried := by
            simp [connect, hh]
        _ = ⟨Except.error cql_exception_t.no_host_available, st, tried⟩ := ih hrest

/-- Witness for C6_no_viable_host on the one-host plan whose host is not
considerably up: the dispatch throws `no_host_available` with the tried
list left empty. -/
theorem C6_no_viable_host_witness :
    (∀ host ∈ [host_down3], host.is_considerably_up = false)
    ∧ connect opts0 st0 [host_down3] []
        = ⟨Except.error cql_exception_t.no_host_available, st0, []⟩ :=
  ⟨by decide, C6_no_viable_host opts0 st0 [host_down3] [] (by decide)⟩

/-- Erasure never lengthens a collection. -/
theorem collection_try_erase_length_le (conn_id : Nat) :
    ∀ c : cql_connections_collection_t,
      (collection_try_erase c conn_id).2.length ≤ c.length := by
  intro c
  induction c with
  | nil => simp [collection_try_erase]
  | cons p rest ih =>
      obtain ⟨i, conn⟩ := p
      by_cases h : i = conn_id
      · simp [collection_try_erase, h]
      · simp only [collection_try_erase, if_neg h, List.length_cons]
        exact Nat.succ_le_succ ih

/-- When the (current) collection is at or below the core size, the
`try_find_free_stream` iteration never deposits anything into the
trashcan: the collection only shrinks during the walk, so the strict
`size > core` guard stays false. -/
theorem try_find_free_stream_loop_no_trash (opts : cql_pooling_options_t)
    (d : cql_host_distance_enum) :
    ∀ (entries : List (Nat × cql_connection_t))
      (connections : cql_connections_collection_t)
      (ctrs : connection_counters_t) (trash : cql_trashcan_t),
      (connections.length : Int) ≤ opts.core_connections_per_host d →
      (try_find_free_stream_loop opts d entries connections ctrs trash).trash
        = trash := by
  intro entries
  induction entries with
  | nil => intro connections ctrs trash _; rfl
  | cons p rest ih =>
      intro connections ctrs trash hlen
      obtain ⟨conn_id, conn⟩ := p
      have hlen2 : ((collection_try_erase connections conn_id).2.length : Int)
          ≤ opts.core_connections_per_host d :=
        le_trans
          (by exact_mod_cast collection_try_erase_length_le conn_id connections)
          hlen
      cases hhealthy : conn.is_healthy with
      | false =>
          cases herase : (collection_try_erase connections conn_id).1 with
          | some erased =>
              simp [try_find_free_stream_loop, hhealthy, herase]
              exact ih _ _ _ hlen2
          | none =>
              simp [try_find_free_stream_loop, hhealthy, herase]
              exact ih _ _ _ hlen2
      | true =>
          have hcore : ¬ ((connections.length : Int)
              > opts.core_connections_per_host d) := not_lt.2 hlen
          cases hbusy : conn.is_busy
              (opts.max_simultaneous_requests_per_connection_treshold d) with
          | false =>
              cases hinv : (conn.acquire_stream).is_invalid with
              | false =>
                  simp [try_find_free_stream_loop, hhealthy, hbusy, hinv]
              | true =>
                  simp [try_find_free_stream_loop, hhealthy, hbusy, hinv]
                  exact ih _ _ _ hlen
          | true =>
              simp [try_find_free_stream_loop, hhealthy, hbusy, hcore]
              exact ih _ _ _ hlen

/-- Any connection found in the trashcan after the iteration either was
there already or was deposited by the move-to-trashcan branch, whose
guards certify it healthy, at the busy watermark, at or below the min
watermark, with the current collection size — bounded by `N` — strictly
above the core value. -/
theorem try_find_free_stream_loop_trash_source (opts : cql_pooling_options_t)
    (d : cql_host_distance_enum) (N : Int) :
    ∀ (entries : List (Nat × cql_connection_t))
      (connections : cql_connections_collection_t)
      (ctrs : connection_counters_t) (trash : cql_trashcan_t),
      (connections.length : Int) ≤ N →
      ∀ c ∈ (try_find_free_stream_loop opts d entries connections ctrs trash).trash,
        c ∈ trash ∨
          (c.is_healthy = true
           ∧ c.is_busy
               (opts.max_simultaneous_requests_per_connection_treshold d) = true
           ∧ c.is_free
               (opts.min_simultaneous_requests_per_connection_treshold d) = true
           ∧ opts.core_connections_per_host d < N) := by
  intro entries
  induction entries with
  | nil => intro connections ctrs trash _ c hc; exact Or.inl hc
  | cons p rest ih =>
      intro connections ctrs trash hlen c hc
      obtain ⟨conn_id, conn⟩ := p
      have hlen2 : ((collection_try_erase connections conn_id).2.length : Int) ≤ N :=
        le_trans
          (by exact_mod_cast collection_try_erase_length_le conn_id connections)
          hlen
      cases hhealthy : conn.is_healthy with
      | false =>
          cases herase : (collection_try_erase connections conn_id).1 with
          | some erased =>
              simp [try_find_free_stream_loop, hhealthy, herase] at hc
              exact ih _ _ _ hlen2 c hc
          | none =>
              simp [try_find_free_stream_loop, hhealthy, herase] at hc
              exact ih _ _ _ hlen2 c hc
      | true =>
          cases hbusy : conn.is_busy
              (opts.max_simultaneous_requests_per_connection_treshold d) with
          | false =>
              cases hinv : (conn.acquire_stream).is_invalid with
              | false =>
                  simp [try_find_free_stream_loop, hhealthy, hbusy, hinv] at hc
                  exact Or.inl hc
              | true =>
                  simp [try_find_free_stream_loop, hhealthy, hbusy, hinv] at hc
                  exact ih _ _ _ hlen c hc
          | true =>
              by_cases hcore : (connections.length : Int)
                  > opts.core_connections_per_host d
              · cases hfree : conn.is_free
                    (opts.min_simultaneous_requests_per_connection_treshold d) with
                | true =>
                    cases herase : (collection_try_erase connections conn_id).1 with
                    | some erased =>
                        simp [try_find_free_stream_loop, hhealthy, hbusy, hcore,
                          hfree, herase, trashcan_put] at hc
                        rcases ih _ _ _ hlen2 c hc with hm | hp
                        · rcases List.mem_cons.1 hm with hceq | hmem
                          · subst hceq
                            exact Or.inr
                              ⟨hhealthy, hbusy, hfree, lt_of_lt_of_le hcore hlen⟩
                          · exact Or.inl hmem
                        · exact Or.inr hp
                    | none =>
                        simp [try_find_free_stream_loop, hhealthy, hbusy, hcore,
                          hfree, herase] at hc
                        exact ih _ _ _ hlen2 c hc
                | false =>
                    simp [try_find_free_stream_loop, hhealthy, hbusy, hcore,
                      hfree] at hc
                    exact ih _ _ _ hlen c hc
              · simp [try_find_free_stream_loop, hhealthy, hbusy, hcore] at hc
                exact ih _ _ _ hlen c hc

/-- Claim C3: in `try_find_free_stream`, a healthy connection is moved
to the trashcan only when the pool's connection count strictly exceeds
`core_connections_per_host(distance)` and the connection's in-flight
count is at or below the min-simultaneous watermark (`is_free`); when
the pool size is at (in particular, exactly equal to) the core value, no
connection — idle or not — is ever trashed. -/
theorem C3_trashcan_only_beyond_core (opts : cql_pooling_options_t)
    (host : cql_host_t) (connections : cql_connections_collection_t)
    (ctrs : connection_counters_t) (trash : cql_trashcan_t) :
    ((connections.length : Int) ≤ opts.core_connections_per_host host.distance →
      (try_find_free_stream opts host connections ctrs trash).trash = trash)
    ∧ ∀ c ∈ (try_find_free_stream opts host connections ctrs trash).trash,
        c ∈ trash ∨
          (c.is_healthy = true
           ∧ c.is_busy (opts.max_simultaneous_requests_per_connection_treshold
               host.distance) = true
           ∧ c.is_free (opts.min_simultaneous_requests_per_connection_treshold
               host.distance) = true
           ∧ opts.core_connections_per_host host.distance
               < (connections.length : Int)) :=
  ⟨fun h => try_find_free_stream_loop_no_trash opts host.distance
      connections connections ctrs trash h,
   fun c hc => try_find_free_stream_loop_trash_source opts host.distance
      (connections.length) connections connections ctrs trash le_rfl c hc⟩

/-- Witness for C3 at `opts_idle` (busy watermark 0, so the single
connection with 3 in-flight requests is busy, and idle-eligible at min
watermark 5): the collection size 1 equals the core value 1, and indeed
nothing is trashed. -/
theorem C3_trashcan_only_beyond_core_witness :
    ((([(44, conn_mid)] : cql_connections_collection_t).length : Int)
        ≤ opts_idle.core_connections_per_host host_up1.distance)
    ∧ (try_find_free_stream opts_idle host_up1 [(44, conn_mid)] [] []).trash = [] :=
  ⟨by decide,
   (C3_trashcan_only_beyond_core opts_idle host_up1 [(44, conn_mid)] [] []).1
     (by decide)⟩

/-- Claim C10: the future-returning `prepare(q)` is extensionally equal
to the future-returning `query(q)`: the two bodies agree on every
connection outcome — both set the stream on a copy of the query and
submit through the connection's `query` operation (`prepare` never
produces a `submitted_prepare`), and both carry the same library-error
message on the null-connection branch — and the two full dispatch
functions agree on every input. -/
theorem C10_prepare_extensionally_query :
    (∀ (q : cql_query_t) (r : Option (cql_connection_t × cql_stream_t)),
        prepare_body q r = query_body q r)
    ∧ ∀ (opts : cql_pooling_options_t) (st : cql_session_impl_t)
        (plan : List cql_host_t) (q : cql_query_t),
        prepare_future opts st plan q = query_future opts st plan q := by
  constructor
  · intro q r
    cases r with
    | none => rfl
    | some cs => rfl
  · intro opts st plan q
    unfold prepare_future query_future
    cases get_connection opts st plan with
    | mk res st1 tried =>
        cases res with
        | error e => rfl
        | ok cs => rfl

end CqlSession
